import Mathlib

/-!
Verification of the stock-analysis core of `ai-ding-stock`.

Shallow embedding conventions:
* Go `int`/`int64` values (prices in cents, volumes, counts, nanosecond
  durations) are modelled as `Int`; Go integer division (which truncates
  toward zero) is `Int.tdiv`.
* Go `float64` values are modelled as `ℚ` (exact arithmetic; no claim in
  scope depends on rounding).
* Go maps with a fixed key set (the `technicalData` map built by
  `calculateTechnicalIndicators`) are modelled as a structure whose fields
  are `Option`-valued exactly when the Go code inserts the key
  conditionally.  A missing key read through an unchecked Go type
  assertion `v.(T)` panics; this is modelled by `Option` bind, with `none`
  propagating as the `panic` outcome.
* `fmt.Sprintf` formatting of a number into a string keeps only the
  numeric payload in the model (the formatted entries `change_percent`,
  `rate`, `outer_ratio`, `buy_sell_ratio`, `rsi14`, `volatility_20d` carry
  the `ℚ` value being formatted); no claim depends on the rendered text.
* `calculateVolatility` in Go returns `math.Sqrt(variance)`;
  the model records `variance` itself (`calculateVolatilityVariance`).
  Since `Real.sqrt` is strictly monotone with `sqrt 0 = 0`, the claims in
  scope (presence of the field, and zero-ness on constant series)
  transfer verbatim.
-/

/-- One order-book level (`Level` in `tdx_client.go`): price in cents and
quantity. -/
structure PriceLevel where
  price : Int
  number : Int
deriving DecidableEq

/-- One K-line bar (`KlineItem` in `tdx_client.go`); `Time` is dropped since
only display formatting uses it.  Prices are integer cents. -/
structure KlineItem where
  openP : Int
  highP : Int
  lowP : Int
  close : Int
  volume : Int
  amount : Int
deriving DecidableEq

/-- The inner `K` record of a quote: current/open/high/low/previous-close
prices in cents (`quote.K.Close`, `.Open`, `.High`, `.Low`, `.Last`). -/
structure QuoteK where
  close : Int
  openP : Int
  highP : Int
  lowP : Int
  last : Int
deriving DecidableEq

/-- Real-time quote (`QuoteData` in `tdx_client.go`), restricted to the
fields the analyzer reads. -/
structure QuoteData where
  k : QuoteK
  rate : ℚ
  totalHand : Int
  amount : Int
  insideDish : Int
  outerDisc : Int
  intuition : Int
  buyLevel : List PriceLevel
  sellLevel : List PriceLevel
deriving DecidableEq

/-- Candle series (`KlineData`), oldest first. -/
structure KlineData where
  list : List KlineItem
deriving DecidableEq

/-- One intraday tick (`MinuteItem`). -/
structure MinuteItem where
  time : String
  price : Int
  number : Int
deriving DecidableEq

/-- Intraday tick series (`MinuteData`). -/
structure MinuteData where
  list : List MinuteItem
deriving DecidableEq

/-- Modelled from the spec: the cent→yuan helper of `tdx_client.go` (file
not under `src/`); the spec fixes prices as "integer-cent units" with "a
helper converts cent prices → yuan (float)". -/
def PriceToYuan (c : Int) : ℚ := (c : ℚ) / 100

/-- Modelled from the spec: the lots→shares helper of `tdx_client.go` (file
not under `src/`); one A-share lot is 100 shares.  No claim depends on the
scale factor. -/
def VolumeToShares (hand : Int) : Int := hand * 100

/-- Modelled from the spec: the turnover→yuan helper of `tdx_client.go`
(file not under `src/`).  No claim depends on the scale factor. -/
def AmountToYuan (a : Int) : ℚ := (a : ℚ)

/-- Consecutive close-to-close differences.  This is the
`change := klines[i].Close - klines[i-1].Close` loop body of
`calculateRSI`, applied along a window. -/
def closeDiffs : List Int → List Int
  | a :: b :: rest => (b - a) :: closeDiffs (b :: rest)
  | _ => []

/-- `StockAnalyzer.calculateRSI` (analyzer, part_003 lines 252-285).
The Go loop runs `i` over the last `period` indices and compares
`klines[i].Close` with `klines[i-1].Close` under a guard `i > 0`; in the
`else` branch `len ≥ period+1` holds, so the guard is always true and the
loop computes exactly the consecutive differences of the last `period+1`
closes. -/
def calculateRSI (klines : List KlineItem) (period : Nat) : ℚ :=
  if klines.length < period + 1 then 50
  else
    let closes := (klines.drop (klines.length - (period + 1))).map (·.close)
    let diffs := closeDiffs closes
    let gains : Int := (diffs.map (fun d => if 0 < d then d else 0)).sum
    let losses : Int := (diffs.map (fun d => if 0 < d then 0 else -d)).sum
    let avgGain : ℚ := (gains : ℚ) / (period : ℚ)
    let avgLoss : ℚ := (losses : ℚ) / (period : ℚ)
    if avgLoss = 0 then 100
    else
      let rs := avgGain / avgLoss
      100 - 100 / (1 + rs)

/-- Simple returns `(close[i] - close[i-1]) / close[i-1]` along a window,
with the Go guard `close[i-1] != 0` (the `prevIdx >= 0` part of the guard
is vacuous when `len ≥ period+1`, as in `calculateRSI`). -/
def simpleReturns : List Int → List ℚ
  | a :: b :: rest =>
      (if a ≠ 0 then (((b - a : Int) : ℚ) / (a : ℚ)) else 0) :: simpleReturns (b :: rest)
  | _ => []

/-- `StockAnalyzer.calculateVolatility` (part_003 lines 288-323) up to the
final `math.Sqrt`: the sample variance of the last `period` simple
returns.  The Go function returns `sqrt` of this value; see the header
note. -/
def calculateVolatilityVariance (klines : List KlineItem) (period : Nat) : ℚ :=
  if klines.length < period + 1 then 0
  else
    let closes := (klines.drop (klines.length - (period + 1))).map (·.close)
    let rets := simpleReturns closes
    let mean := rets.sum / (period : ℚ)
    (rets.map (fun r => (r - mean) ^ 2)).sum / (period : ℚ)

/-- The `technicalData` map built by `calculateTechnicalIndicators`
(part_003 lines 139-249).  The key set is fixed, so the map is a record;
a field is `Option`-valued iff the Go code inserts the key under a
condition.  String-formatted entries carry their numeric payload. -/
structure TechnicalData where
  current_price : ℚ
  open_price : ℚ
  high_price : ℚ
  low_price : ℚ
  prev_close : ℚ
  change_percent : Option ℚ
  rate : ℚ
  volume : Int
  amount : ℚ
  outer_ratio : Option ℚ
  buy_sell_ratio : Option ℚ
  ma5 : Option ℚ
  ma10 : Option ℚ
  ma20 : Option ℚ
  ma60 : Option ℚ
  rsi14 : Option ℚ
  volatility_20d : Option ℚ
deriving DecidableEq

/-- `StockAnalyzer.calculateTechnicalIndicators` (part_003 lines 139-249).
The MA blocks mirror the nesting of the Go `if len >= 5 { ... if len >= 10
{ ... } }` structure; each `maN` sums the last `N` closes (the loop from
`listLen-N` to `listLen`) and divides by `N` in Go integer arithmetic
before the cent→yuan conversion. -/
def calculateTechnicalIndicators (quote : QuoteData) (dayKline : KlineData)
    (_min30Kline : KlineData) : TechnicalData :=
  let len := dayKline.list.length
  let maSum (n : Nat) : Int := ((dayKline.list.drop (len - n)).map (·.close)).sum
  { current_price := PriceToYuan quote.k.close
    open_price := PriceToYuan quote.k.openP
    high_price := PriceToYuan quote.k.highP
    low_price := PriceToYuan quote.k.lowP
    prev_close := PriceToYuan quote.k.last
    change_percent :=
      if 0 < quote.k.last then
        some (((quote.k.close - quote.k.last : Int) : ℚ) / (quote.k.last : ℚ) * 100)
      else none
    rate :=
      if quote.rate ≠ 0 then quote.rate
      else if 0 < quote.k.last then
        ((quote.k.close - quote.k.last : Int) : ℚ) / (quote.k.last : ℚ) * 100
      else 0
    volume := VolumeToShares quote.totalHand
    amount := AmountToYuan quote.amount
    outer_ratio :=
      if 0 < quote.insideDish + quote.outerDisc then
        some ((quote.outerDisc : ℚ) / ((quote.insideDish + quote.outerDisc : Int) : ℚ) * 100)
      else none
    buy_sell_ratio :=
      if 0 < quote.buyLevel.length ∧ 0 < quote.sellLevel.length then
        some ((((quote.buyLevel.map (·.number)).sum : Int) : ℚ) /
          (((quote.sellLevel.map (·.number)).sum : Int) : ℚ))
      else none
    ma5 := if 5 ≤ len then some (PriceToYuan (Int.tdiv (maSum 5) 5)) else none
    ma10 :=
      if 5 ≤ len then
        (if 10 ≤ len then some (PriceToYuan (Int.tdiv (maSum 10) 10)) else none)
      else none
    ma20 :=
      if 5 ≤ len then
        (if 20 ≤ len then some (PriceToYuan (Int.tdiv (maSum 20) 20)) else none)
      else none
    ma60 :=
      if 5 ≤ len then
        (if 60 ≤ len then some (PriceToYuan (Int.tdiv (maSum 60) 60)) else none)
      else none
    rsi14 := if 14 ≤ len then some (calculateRSI dayKline.list 14) else none
    volatility_20d :=
      if 20 ≤ len then some (calculateVolatilityVariance dayKline.list 20) else none }

/-- A daily bar with all prices equal to `c` (synthetic constant series). -/
def constBar (c : Int) : KlineItem := ⟨c, c, c, c, 0, 0⟩

/-- A concrete, fully populated quote used as test input. -/
def quoteW : QuoteData :=
  { k := ⟨1250, 1260, 1270, 1240, 1245⟩
    rate := 0
    totalHand := 100
    amount := 500000
    insideDish := 40
    outerDisc := 60
    intuition := 5
    buyLevel := [⟨1249, 10⟩, ⟨1248, 20⟩]
    sellLevel := [⟨1251, 12⟩, ⟨1252, 8⟩] }

section ConstantSeriesLemmas

lemma closeDiffs_replicate (n : Nat) (x : Int) :
    closeDiffs (List.replicate (n + 1) x) = List.replicate n 0 := by
  induction n with
  | zero => rfl
  | succ m ih =>
      rw [List.replicate_succ, List.replicate_succ]
      show (x - x) :: closeDiffs (x :: List.replicate m x) = 0 :: List.replicate m 0
      rw [← List.replicate_succ, ih, sub_self]

lemma simpleReturns_replicate (n : Nat) (x : Int) :
    simpleReturns (List.replicate (n + 1) x) = List.replicate n 0 := by
  induction n with
  | zero => rfl
  | succ m ih =>
      rw [List.replicate_succ, List.replicate_succ]
      show (if x ≠ 0 then (((x - x : Int) : ℚ) / (x : ℚ)) else 0) ::
          simpleReturns (x :: List.replicate m x) = 0 :: List.replicate m 0
      rw [← List.replicate_succ, ih]
      simp

lemma sum_last_closes (c : Int) (N k : Nat) (hk : k ≤ N) :
    (((List.replicate N (constBar c)).drop (N - k)).map (·.close)).sum = (k : Int) * c := by
  rw [List.drop_replicate, List.map_replicate]
  have h : N - (N - k) = k := by omega
  rw [h]
  simp [List.sum_replicate, nsmul_eq_mul, constBar]

lemma tail_closes_replicate (c : Int) (N k : Nat) (hk : k ≤ N) :
    ((List.replicate N (constBar c)).drop (N - k)).map (·.close) = List.replicate k c := by
  rw [List.drop_replicate, List.map_replicate]
  have h : N - (N - k) = k := by omega
  rw [h]
  rfl

lemma ma_replicate (c : Int) (N k : Nat) (hk : k ≤ N) (hk0 : (k : Int) ≠ 0) :
    Int.tdiv ((((List.replicate N (constBar c)).drop (N - k)).map (·.close)).sum) (k : Int) = c := by
  rw [sum_last_closes c N k hk]
  exact Int.mul_tdiv_cancel_left c hk0

lemma calculateRSI_replicate (c : Int) (N : Nat) (hN : 15 ≤ N) :
    calculateRSI (List.replicate N (constBar c)) 14 = 100 := by
  unfold calculateRSI
  rw [List.length_replicate]
  rw [if_neg (by omega)]
  have hc : ((List.replicate N (constBar c)).drop (N - (14 + 1))).map (·.close) =
      List.replicate 15 c := tail_closes_replicate c N 15 (by omega)
  simp only [List.length_replicate, hc]
  rw [show (15 : Nat) = 14 + 1 from rfl, closeDiffs_replicate]
  simp [List.map_replicate, List.sum_replicate]

lemma calculateVolatilityVariance_replicate (c : Int) (N : Nat) (hN : 21 ≤ N) :
    calculateVolatilityVariance (List.replicate N (constBar c)) 20 = 0 := by
  unfold calculateVolatilityVariance
  rw [List.length_replicate]
  rw [if_neg (by omega)]
  have hc : ((List.replicate N (constBar c)).drop (N - (20 + 1))).map (·.close) =
      List.replicate 21 c := tail_closes_replicate c N 21 (by omega)
  simp only [List.length_replicate, hc]
  rw [show (21 : Nat) = 20 + 1 from rfl, simpleReturns_replicate]
  simp [List.map_replicate, List.sum_replicate]

end ConstantSeriesLemmas

/-- C3 counterexample: on 60 identical daily closes the stored RSI value is
`100` (the `avgLoss == 0` branch of `calculateRSI`), not the midpoint `50`
the claim states; `50` is only the internal fallback for fewer than
`period+1` candles. -/
theorem rsi14_constant_closes_is_100_not_50 :
    (calculateTechnicalIndicators quoteW ⟨List.replicate 60 (constBar 1000)⟩ ⟨[]⟩).rsi14 =
        some 100 ∧
      (calculateTechnicalIndicators quoteW ⟨List.replicate 60 (constBar 1000)⟩ ⟨[]⟩).rsi14 ≠
        some 50 := by
  have h : (calculateTechnicalIndicators quoteW ⟨List.replicate 60 (constBar 1000)⟩ ⟨[]⟩).rsi14 =
      some 100 := by
    simp only [calculateTechnicalIndicators, List.length_replicate]
    rw [calculateRSI_replicate 1000 60 (by omega)]
    norm_num
  exact ⟨h, by rw [h]; simp⟩

/-- C3 (amended): for a synthetic daily series of `N ≥ 60` identical closes,
all four moving averages equal the common close converted to yuan, the
20-day volatility is `0`, and the stored RSI is `100` (the code's
`avgLoss = 0` convention), not `50`. -/
theorem constant_closes_indicators (c : Int) (N : Nat) (hN : 60 ≤ N)
    (quote : QuoteData) (min30 : KlineData) :
    (calculateTechnicalIndicators quote ⟨List.replicate N (constBar c)⟩ min30).ma5 =
        some (PriceToYuan c) ∧
      (calculateTechnicalIndicators quote ⟨List.replicate N (constBar c)⟩ min30).ma10 =
        some (PriceToYuan c) ∧
      (calculateTechnicalIndicators quote ⟨List.replicate N (constBar c)⟩ min30).ma20 =
        some (PriceToYuan c) ∧
      (calculateTechnicalIndicators quote ⟨List.replicate N (constBar c)⟩ min30).ma60 =
        some (PriceToYuan c) ∧
      (calculateTechnicalIndicators quote ⟨List.replicate N (constBar c)⟩ min30).volatility_20d =
        some 0 ∧
      (calculateTechnicalIndicators quote ⟨List.replicate N (constBar c)⟩ min30).rsi14 =
        some 100 := by
  have hma : ∀ k : Nat, k ≤ N → (k : Int) ≠ 0 →
      Int.tdiv ((((List.replicate N (constBar c)).drop (N - k)).map (·.close)).sum) (k : Int)
        = c := fun k hk hk0 => ma_replicate c N k hk hk0
  have h5 := hma 5 (by omega) (by norm_num)
  have h10 := hma 10 (by omega) (by norm_num)
  have h20 := hma 20 (by omega) (by norm_num)
  have h60 := hma 60 (by omega) (by norm_num)
  rw [(by norm_num : ((5 : ℕ) : ℤ) = (5 : ℤ))] at h5
  rw [(by norm_num : ((10 : ℕ) : ℤ) = (10 : ℤ))] at h10
  rw [(by norm_num : ((20 : ℕ) : ℤ) = (20 : ℤ))] at h20
  rw [(by norm_num : ((60 : ℕ) : ℤ) = (60 : ℤ))] at h60
  refine ⟨?_, ?_, ?_, ?_, ?_, ?_⟩ <;>
    simp only [calculateTechnicalIndicators, List.length_replicate]
  · rw [if_pos (by omega : 5 ≤ N), h5]
  · rw [if_pos (by omega : 5 ≤ N), if_pos (by omega : 10 ≤ N), h10]
  · rw [if_pos (by omega : 5 ≤ N), if_pos (by omega : 20 ≤ N), h20]
  · rw [if_pos (by omega : 5 ≤ N), if_pos (by omega : 60 ≤ N), h60]
  · rw [if_pos (by omega : 20 ≤ N), calculateVolatilityVariance_replicate c N (by omega)]
  · rw [if_pos (by omega : 14 ≤ N), calculateRSI_replicate c N (by omega)]

/-- Witness for `constant_closes_indicators` at `c = 1000`, `N = 60`. -/
theorem constant_closes_indicators_witness :
    60 ≤ 60 ∧
      ((calculateTechnicalIndicators quoteW ⟨List.replicate 60 (constBar 1000)⟩ ⟨[]⟩).ma5 =
          some (PriceToYuan 1000) ∧
        (calculateTechnicalIndicators quoteW ⟨List.replicate 60 (constBar 1000)⟩ ⟨[]⟩).ma10 =
          some (PriceToYuan 1000) ∧
        (calculateTechnicalIndicators quoteW ⟨List.replicate 60 (constBar 1000)⟩ ⟨[]⟩).ma20 =
          some (PriceToYuan 1000) ∧
        (calculateTechnicalIndicators quoteW ⟨List.replicate 60 (constBar 1000)⟩ ⟨[]⟩).ma60 =
          some (PriceToYuan 1000) ∧
        (calculateTechnicalIndicators quoteW
            ⟨List.replicate 60 (constBar 1000)⟩ ⟨[]⟩).volatility_20d = some 0 ∧
        (calculateTechnicalIndicators quoteW ⟨List.replicate 60 (constBar 1000)⟩ ⟨[]⟩).rsi14 =
          some 100) :=
  ⟨le_refl 60, constant_closes_indicators 1000 60 (le_refl 60) quoteW ⟨[]⟩⟩

/-- C4 counterexample: with exactly 14 daily candles (14 < 15) the `rsi14`
field is already present, and with exactly 20 daily candles (20 < 21)
`volatility_20d` is already present — the insertion guards in
`calculateTechnicalIndicators` are `len ≥ 14` and `len ≥ 20`, one candle
earlier than the spec's stated preconditions. -/
theorem rsi14_and_volatility_present_below_spec_threshold :
    ((calculateTechnicalIndicators quoteW ⟨List.replicate 14 (constBar 1000)⟩
        ⟨[]⟩).rsi14.isSome = true ∧
      (List.replicate 14 (constBar 1000)).length = 14) ∧
    ((calculateTechnicalIndicators quoteW ⟨List.replicate 20 (constBar 1000)⟩
        ⟨[]⟩).volatility_20d.isSome = true ∧
      (List.replicate 20 (constBar 1000)).length = 20) := by
  refine ⟨⟨?_, by simp⟩, ⟨?_, by simp⟩⟩ <;> simp [calculateTechnicalIndicators]

/-- C4 (amended): each conditional field of the indicator snapshot is
present iff the code's insertion guard holds — `change_percent` iff
`prevClose > 0`, `outer_ratio` iff `inside + outer > 0`, `buy_sell_ratio`
iff both book sides are non-empty, `maN` iff at least `N` daily candles,
`rsi14` iff at least 14 daily candles (value 50 at exactly 14), and
`volatility_20d` iff at least 20 daily candles (value 0 at exactly 20);
the remaining fields (prices, `rate`, `volume`, `amount`) are always
present. -/
theorem indicator_presence_iff (quote : QuoteData) (day : KlineData) (min30 : KlineData) :
    ((calculateTechnicalIndicators quote day min30).change_percent.isSome = true ↔
        0 < quote.k.last) ∧
      ((calculateTechnicalIndicators quote day min30).outer_ratio.isSome = true ↔
        0 < quote.insideDish + quote.outerDisc) ∧
      ((calculateTechnicalIndicators quote day min30).buy_sell_ratio.isSome = true ↔
        (0 < quote.buyLevel.length ∧ 0 < quote.sellLevel.length)) ∧
      ((calculateTechnicalIndicators quote day min30).ma5.isSome = true ↔
        5 ≤ day.list.length) ∧
      ((calculateTechnicalIndicators quote day min30).ma10.isSome = true ↔
        10 ≤ day.list.length) ∧
      ((calculateTechnicalIndicators quote day min30).ma20.isSome = true ↔
        20 ≤ day.list.length) ∧
      ((calculateTechnicalIndicators quote day min30).ma60.isSome = true ↔
        60 ≤ day.list.length) ∧
      ((calculateTechnicalIndicators quote day min30).rsi14.isSome = true ↔
        14 ≤ day.list.length) ∧
      ((calculateTechnicalIndicators quote day min30).volatility_20d.isSome = true ↔
        20 ≤ day.list.length) := by
  refine ⟨?_, ?_, ?_, ?_, ?_, ?_, ?_, ?_, ?_⟩ <;>
    simp only [calculateTechnicalIndicators] <;>
    split_ifs <;> simp_all <;> omega

/-- Per-instrument analysis configuration (`AnalysisConfig`, part_003 lines
22-34).  `scanInterval` is a Go `time.Duration` in nanoseconds; `buyDate`
abstracts `time.Time` as an ordinal. -/
structure AnalysisConfig where
  stockCode : String
  stockName : String
  scanInterval : Int
  enableNotification : Bool
  minConfidence : Int
  positionQuantity : Int
  buyPrice : ℚ
  buyDate : Nat
deriving DecidableEq

/-- `AnalysisConfig.IsPositionMode` (part_003 lines 36-39). -/
def AnalysisConfig.IsPositionMode (c : AnalysisConfig) : Bool :=
  decide (0 < c.positionQuantity) && decide (0 < c.buyPrice)

/-- `PositionInfo` (src/stock/position.go lines 8-20). -/
structure PositionInfo where
  stockCode : String
  stockName : String
  quantity : Int
  buyPrice : ℚ
  buyDate : Nat
  currentPrice : ℚ
  totalCost : ℚ
  marketValue : ℚ
  profitLoss : ℚ
  profitLossPercent : ℚ
deriving DecidableEq

/-- `CalculatePositionInfo` (src/stock/position.go lines 22-44). -/
def CalculatePositionInfo (code name : String) (quantity : Int)
    (buyPrice currentPrice : ℚ) (buyDate : Nat) : PositionInfo :=
  let totalCost := buyPrice * (quantity : ℚ)
  let marketValue := currentPrice * (quantity : ℚ)
  let profitLoss := marketValue - totalCost
  let profitLossPercent := if 0 < buyPrice then ((currentPrice - buyPrice) / buyPrice) * 100 else 0
  { stockCode := code, stockName := name, quantity := quantity, buyPrice := buyPrice
    buyDate := buyDate, currentPrice := currentPrice, totalCost := totalCost
    marketValue := marketValue, profitLoss := profitLoss
    profitLossPercent := profitLossPercent }

/-- The numeric substitution slots of the prompt built by
`StockAnalyzer.buildAnalysisPrompt` (part_003 lines 325-641).  The fixed
prompt text, the order-book and K-line rendering loops and the checklist
are pure string formatting with no map reads and cannot fail, so only the
substituted values are recorded. -/
structure PromptSlots where
  currentPrice : ℚ
  openPrice : ℚ
  highPrice : ℚ
  lowPrice : ℚ
  prevClose : ℚ
  changePercent : ℚ
  rate : ℚ
  intuition : Int
  volume : Int
  amountWan : ℚ
  outerRatio : ℚ
  buySellRatio : ℚ
  buyLevels : List PriceLevel
  sellLevels : List PriceLevel
  ma5 : ℚ
  ma10 : ℚ
  ma20 : ℚ
  ma60 : ℚ
  rsi14 : ℚ
  volatility20d : ℚ
  positionBlock : Option PositionInfo
  dayCount : Nat
  min30Count : Nat
  minuteCount : Nat
deriving DecidableEq

/-- `StockAnalyzer.buildAnalysisPrompt` (part_003 lines 325-641).  Every
unchecked Go type assertion `technical[key].(T)` on a conditionally
inserted key is an `Option` bind, in the source order of the assertions
(`change_percent`, `outer_ratio`, `buy_sell_ratio`, then `ma5`, `ma10`,
`ma20`, `ma60`, `rsi14`, `volatility_20d`); a `none` is the Go runtime
panic `interface conversion: interface {} is nil`.  Assertions on the
unconditionally inserted keys always succeed and read the plain fields. -/
def buildAnalysisPrompt (cfg : AnalysisConfig) (quote : QuoteData)
    (dayKline min30Kline : KlineData) (minuteData : Option MinuteData)
    (technical : TechnicalData) : Option PromptSlots := do
  let changePercent ← technical.change_percent
  let outerRatio ← technical.outer_ratio
  let buySellRatio ← technical.buy_sell_ratio
  let ma5 ← technical.ma5
  let ma10 ← technical.ma10
  let ma20 ← technical.ma20
  let ma60 ← technical.ma60
  let rsi14 ← technical.rsi14
  let volatility20d ← technical.volatility_20d
  some { currentPrice := technical.current_price
         openPrice := technical.open_price
         highPrice := technical.high_price
         lowPrice := technical.low_price
         prevClose := technical.prev_close
         changePercent := changePercent
         rate := technical.rate
         intuition := quote.intuition
         volume := technical.volume
         amountWan := AmountToYuan quote.amount / 10000
         outerRatio := outerRatio
         buySellRatio := buySellRatio
         buyLevels := quote.buyLevel
         sellLevels := quote.sellLevel
         ma5 := ma5, ma10 := ma10, ma20 := ma20, ma60 := ma60
         rsi14 := rsi14
         volatility20d := volatility20d
         positionBlock :=
           if cfg.IsPositionMode then
             some (CalculatePositionInfo cfg.stockCode cfg.stockName cfg.positionQuantity
               cfg.buyPrice technical.current_price cfg.buyDate)
           else none
         dayCount := dayKline.list.length
         min30Count := min30Kline.list.length
         minuteCount :=
           match minuteData with
           | some md => md.list.length
           | none => 0 }

/-- Modelled from the spec: the `Decision` object produced by
`ParseAIResponse` in `ai_parser.go` (file not under `src/`): required
`signal`, integer `confidence`, `reasoning`; optional numeric fields
default to 0 when absent. -/
structure AIDecision where
  signal : String
  confidence : Int
  reasoning : String
  targetPrice : ℚ
  stopLoss : ℚ
  riskReward : String
  positionProfitTarget : ℚ
  positionStopLoss : ℚ
deriving DecidableEq

/-- Modelled from the spec: `ValidateDecision` from `ai_parser.go` (file not
under `src/`), §4.6 of the spec: four advisory rules producing warnings
and never a rejection.  The exact warning strings are immaterial to every
claim in scope; the signal and confidence are never modified. -/
def ValidateDecision (d : AIDecision) (currentPrice : ℚ) : List String :=
  (if d.signal = "BUY" ∧ d.targetPrice ≤ currentPrice then ["目标价应高于当前价"] else []) ++
    (if d.signal = "BUY" ∧ currentPrice ≤ d.stopLoss then ["止损价应低于当前价"] else []) ++
    (if 0 < d.targetPrice ∧
        (currentPrice * 3 / 2 < d.targetPrice ∨ d.targetPrice < currentPrice / 2) then
      ["目标价偏离当前价超过50%"] else []) ++
    (if 0 < d.stopLoss ∧
        (currentPrice * 3 / 2 < d.stopLoss ∨ d.stopLoss < currentPrice / 2) then
      ["止损价偏离当前价超过50%"] else []) ++
    (if d.signal = "HOLD" ∧ 0 < d.targetPrice ∧ 80 ≤ d.confidence then
      ["HOLD信号但给出高信心目标价"] else [])

/-- `AnalysisResult` (part_003 lines 52-70); `timestamp` abstracts
`time.Time` as an ordinal. -/
structure AnalysisResult where
  stockCode : String
  stockName : String
  currentPrice : ℚ
  signal : String
  confidence : Int
  reasoning : String
  targetPrice : ℚ
  stopLoss : ℚ
  riskReward : String
  technicalData : TechnicalData
  timestamp : Nat
  positionProfitTarget : ℚ
  positionStopLoss : ℚ
  positionInfo : Option PositionInfo
deriving DecidableEq

/-- Modelled from the spec: `ConvertToAnalysisResult` from `ai_parser.go`
(file not under `src/`): copies the decision fields into an
`AnalysisResult` together with code, name, current price, the indicator
snapshot and the timestamp (spec §4.9 step 7). -/
def ConvertToAnalysisResult (d : AIDecision) (code name : String) (currentPrice : ℚ)
    (technical : TechnicalData) (now : Nat) : AnalysisResult :=
  { stockCode := code, stockName := name, currentPrice := currentPrice
    signal := d.signal, confidence := d.confidence, reasoning := d.reasoning
    targetPrice := d.targetPrice, stopLoss := d.stopLoss, riskReward := d.riskReward
    technicalData := technical, timestamp := now
    positionProfitTarget := d.positionProfitTarget
    positionStopLoss := d.positionStopLoss
    positionInfo := none }

/-- `StockAnalyzer.parseAIResponse` (part_003 lines 643-697).  The Go
function returns `(result, nil)` on both branches — the parse-failure
branch produces the synthetic HOLD/30 result embedding the raw reply — so
the model returns the result directly.  The outcome of the missing
`ParseAIResponse` is the `parsed` input. -/
def parseAIResponse (cfg : AnalysisConfig) (aiResponse : String)
    (parsed : Option AIDecision) (technical : TechnicalData) (now : Nat) : AnalysisResult :=
  match parsed with
  | none =>
      { stockCode := cfg.stockCode
        stockName := cfg.stockName
        currentPrice := technical.current_price
        signal := "HOLD"
        confidence := 30
        reasoning := "AI响应解析失败，建议观望。原始响应: " ++ aiResponse
        targetPrice := 0, stopLoss := 0, riskReward := ""
        technicalData := technical
        timestamp := now
        positionProfitTarget := 0, positionStopLoss := 0
        positionInfo := none }
  | some d0 =>
      let warnings := ValidateDecision d0 technical.current_price
      let d :=
        if warnings.isEmpty then d0
        else { d0 with
          reasoning := d0.reasoning ++ "\n\n【系统提示】\n" ++ String.intercalate "\n" warnings }
      ConvertToAnalysisResult d cfg.stockCode cfg.stockName technical.current_price
        technical now

/-- `StockAnalyzer.sendNotification` (part_003 lines 700-741), reduced to
whether a `TradingSignal` is handed to the notifier: `Notifier == nil`
short-circuits, and a failed `SendSignal` is only logged (the dispatch
still happened). -/
def sendNotification (notifierPresent : Bool) : Bool := notifierPresent

/-- The `minuteData = nil` downgrade of `Analyze` step 4 (part_003 lines
101-106): a tick-fetch failure is logged and replaced by nil. -/
def minuteOrNil : Except String MinuteData → Option MinuteData
  | .ok md => some md
  | .error _ => none

/-- Outcome of one `Analyze` call: a Go runtime panic, a returned error, or
a result together with whether a notification was dispatched. -/
inductive AnalyzeOutcome where
  | panic : AnalyzeOutcome
  | err : String → AnalyzeOutcome
  | ok : AnalysisResult → Bool → AnalyzeOutcome
deriving DecidableEq

/-- Environment of one `Analyze` call: the trading-clock state and the
outcomes of the four market-data fetches, the LLM call, and the (missing
from `src/`) `ParseAIResponse`. -/
structure AnalyzeInput where
  checkerPresent : Bool
  isTrading : Bool
  quote : Except String QuoteData
  dayKline : Except String KlineData
  min30Kline : Except String KlineData
  minuteData : Except String MinuteData
  aiResponse : Except String String
  parsed : Option AIDecision
  now : Nat

/-- `StockAnalyzer.Analyze` (part_003 lines 72-137): trading gate, fetch
error wrapping, tick downgrade, indicator computation, prompt build (whose
missing-key type assertions may panic), LLM call, parse (never an error),
and the notification gate
`EnableNotification && Confidence >= MinConfidence` followed by
`sendNotification`'s nil-notifier check. -/
def Analyze (cfg : AnalysisConfig) (inp : AnalyzeInput) (notifierPresent : Bool) :
    AnalyzeOutcome :=
  if inp.checkerPresent && !inp.isTrading then .err "非交易时段"
  else
    match inp.quote with
    | .error e => .err ("获取行情失败: " ++ e)
    | .ok quote =>
      match inp.dayKline with
      | .error e => .err ("获取日K线失败: " ++ e)
      | .ok dayKline =>
        match inp.min30Kline with
        | .error e => .err ("获取30分钟K线失败: " ++ e)
        | .ok min30Kline =>
          let technicalData := calculateTechnicalIndicators quote dayKline min30Kline
          match buildAnalysisPrompt cfg quote dayKline min30Kline
              (minuteOrNil inp.minuteData) technicalData with
          | none => .panic
          | some _prompt =>
            match inp.aiResponse with
            | .error e => .err ("AI分析失败: " ++ e)
            | .ok raw =>
              let result := parseAIResponse cfg raw inp.parsed technicalData inp.now
              let notified :=
                if cfg.enableNotification && decide (cfg.minConfidence ≤ result.confidence)
                then sendNotification notifierPresent
                else false
              .ok result notified

/-- A monitoring-mode configuration used as concrete test input. -/
def cfgW : AnalysisConfig :=
  { stockCode := "000001", stockName := "平安银行", scanInterval := 60000000000
    enableNotification := false, minConfidence := 70
    positionQuantity := 0, buyPrice := 0, buyDate := 0 }

/-- A quote whose inside and outside volumes are both zero, so
`calculateTechnicalIndicators` omits `outer_ratio`; all other fields are
well-formed. -/
def quoteZeroBook : QuoteData :=
  { k := ⟨1250, 1260, 1270, 1240, 1245⟩
    rate := 0
    totalHand := 100
    amount := 500000
    insideDish := 0
    outerDisc := 0
    intuition := 5
    buyLevel := [⟨1249, 10⟩]
    sellLevel := [⟨1251, 12⟩] }

/-- An `Analyze` environment where every fetch and the LLM call succeed,
with 60 daily candles, but the quote has zero inside-plus-outside volume. -/
def inpZeroBook : AnalyzeInput :=
  { checkerPresent := false, isTrading := true
    quote := .ok quoteZeroBook
    dayKline := .ok ⟨List.replicate 60 (constBar 1250)⟩
    min30Kline := .ok ⟨[]⟩
    minuteData := .error "非交易时间"
    aiResponse := .ok "HOLD"
    parsed := none
    now := 0 }

/-- C5: `Analyze` on an input whose only defect is zero inside-plus-outside
volume does not return; it panics, because `buildAnalysisPrompt` runs the
unchecked assertion `technical["outer_ratio"].(string)` on a key the
indicator engine omitted.  This contradicts the spec's "surfaced by
return, never by panic". -/
theorem analyze_panics_on_zero_book_volume :
    Analyze cfgW inpZeroBook true = AnalyzeOutcome.panic := by
  rfl

/-- C2: whenever `Analyze` returns a result, a notification is dispatched
iff notifications are enabled and the result's confidence reaches
`minConfidence`; the signal plays no role in the gate (part_003 lines
128-134).  The hypothesis `notifierPresent = true` holds in the deployed
program: `main` passes a notifier exactly when `Notification.Enabled`, and
`StockConfig.Validate` then forces at least one enabled sink, so
`createNotifier` returns non-nil. -/
theorem analyze_notification_gate (cfg : AnalysisConfig) (inp : AnalyzeInput)
    (r : AnalysisResult) (notified : Bool)
    (h : Analyze cfg inp true = AnalyzeOutcome.ok r notified) :
    notified = true ↔ (cfg.enableNotification = true ∧ cfg.minConfidence ≤ r.confidence) := by
  simp only [Analyze] at h
  repeat' split at h
  all_goals try exact (AnalyzeOutcome.noConfusion h)
  all_goals
    injection h with h1 h2
  all_goals subst h1
  all_goals subst h2
  all_goals simp_all [sendNotification]

/-- A notification-enabled configuration used as concrete test input. -/
def cfgN : AnalysisConfig :=
  { stockCode := "000001", stockName := "平安银行", scanInterval := 60000000000
    enableNotification := true, minConfidence := 70
    positionQuantity := 0, buyPrice := 0, buyDate := 0 }

/-- An `Analyze` environment where every step succeeds and the parsed
decision is BUY with confidence 80. -/
def inpN : AnalyzeInput :=
  { checkerPresent := false, isTrading := true
    quote := .ok quoteW
    dayKline := .ok ⟨List.replicate 60 (constBar 1250)⟩
    min30Kline := .ok ⟨[]⟩
    minuteData := .error "非交易时间"
    aiResponse := .ok "```json ...```"
    parsed := some
      { signal := "BUY", confidence := 80, reasoning := "趋势向上"
        targetPrice := 13, stopLoss := 12, riskReward := "1:2"
        positionProfitTarget := 0, positionStopLoss := 0 }
    now := 1 }

/-- Witness for `analyze_notification_gate` on a concrete successful run. -/
theorem analyze_notification_gate_witness :
    ∃ r notified, Analyze cfgN inpN true = AnalyzeOutcome.ok r notified ∧
      (notified = true ↔ (cfgN.enableNotification = true ∧
        cfgN.minConfidence ≤ r.confidence)) := by
  obtain ⟨r, notified, hE⟩ :
      ∃ r notified, Analyze cfgN inpN true = AnalyzeOutcome.ok r notified := ⟨_, _, rfl⟩
  exact ⟨r, notified, hE, analyze_notification_gate cfgN inpN r notified hE⟩

/-- The `maxHistorySize` clamp in `main` (part_001 lines 112-117): the
configured `analysis_history_limit` clamped to `[3, 100]`. -/
def clampHistoryLimit (n : Int) : Int :=
  if n < 3 then 3 else if n > 100 then 100 else n

/-- The per-code insert step of `AnalyzerManager.saveAnalysisResult`
(part_001 lines 361-383): prepend the new result, then truncate to
`maxHistorySize` entries when the list overflows. -/
def insertHistory (K : Int) (r : AnalysisResult) (h : List AnalysisResult) :
    List AnalysisResult :=
  let h2 := r :: h
  if (h2.length : Int) > K then h2.take K.toNat else h2

/-- `AnalyzerManager.saveAnalysisResult` on the whole history map; a nil
map entry reads as the empty list, as in Go. -/
def saveAnalysisResult (K : Int) (m : String → List AnalysisResult) (code : String)
    (r : AnalysisResult) : String → List AnalysisResult :=
  fun c => if c = code then insertHistory K r (m c) else m c

/-- `AnalyzerManager.GetAnalysisHistory` (part_001 lines 386-404): a
non-positive limit defaults to 20, then up to `limit` entries are returned
from the head. -/
def GetAnalysisHistory (m : String → List AnalysisResult) (code : String) (limit : Int) :
    List AnalysisResult :=
  let limit2 := if limit ≤ 0 then 20 else limit
  let h := m code
  if (h.length : Int) > limit2 then h.take limit2.toNat else h

/-- `AnalyzerManager.runAnalysisWithSemaphore` (part_001 lines 515-532),
restricted to its history effect: on `err == nil && result != nil` the
result is saved; the semaphore acquire/release does not change the data. -/
def runAnalysisWithSemaphore (K : Int) (histories : String → List AnalysisResult)
    (code : String) (outcome : AnalyzeOutcome) : String → List AnalysisResult :=
  match outcome with
  | .ok r _ => saveAnalysisResult K histories code r
  | _ => histories

/-- The history map after a sequence of inserts (scheduled loops, polling
loop and `TriggerAnalysis` all insert through `saveAnalysisResult`). -/
def applyInsertSeq (K : Int) (ops : List (String × AnalysisResult)) :
    String → List AnalysisResult :=
  ops.foldl (fun m op => saveAnalysisResult K m op.1 op.2) (fun _ => [])

/-- A sequence of inserts for one fixed code starting from a given map. -/
def applyInserts (K : Int) (code : String) (rs : List AnalysisResult)
    (m : String → List AnalysisResult) : String → List AnalysisResult :=
  rs.foldl (fun acc r => saveAnalysisResult K acc code r) m

lemma clampHistoryLimit_ge_three (n : Int) : 3 ≤ clampHistoryLimit n := by
  unfold clampHistoryLimit
  split_ifs <;> omega

lemma insertHistory_eq_take (K : Int) (hK : 0 ≤ K) (r : AnalysisResult)
    (h : List AnalysisResult) : insertHistory K r h = (r :: h).take K.toNat := by
  simp only [insertHistory]
  split_ifs with hl
  · rfl
  · have h2 := Int.toNat_of_nonneg hK
    rw [List.take_of_length_le (by simp at hl ⊢; omega)]

lemma insertHistory_length_le (K : Int) (hK : 0 ≤ K) (r : AnalysisResult)
    (h : List AnalysisResult) : ((insertHistory K r h).length : Int) ≤ K := by
  rw [insertHistory_eq_take K hK]
  have h2 := Int.toNat_of_nonneg hK
  simp [List.length_take]
  omega

lemma insertHistory_head (K : Int) (hK : 1 ≤ K) (r : AnalysisResult)
    (h : List AnalysisResult) : (insertHistory K r h).head? = some r := by
  rw [insertHistory_eq_take K (by omega)]
  obtain ⟨k, hk⟩ : ∃ k, K.toNat = k + 1 := ⟨K.toNat - 1, by omega⟩
  rw [hk]
  rfl

/-- C1: after any sequence of history inserts (scheduled analyses or manual
triggers, any mix of codes), every per-code list holds at most
`K = clamp(analysis_history_limit, 3, 100)` entries. -/
theorem history_length_bounded (rawLimit : Int) (ops : List (String × AnalysisResult))
    (code : String) :
    (((applyInsertSeq (clampHistoryLimit rawLimit) ops) code).length : Int) ≤
      clampHistoryLimit rawLimit := by
  have hK : (0 : Int) ≤ clampHistoryLimit rawLimit := by
    have := clampHistoryLimit_ge_three rawLimit
    omega
  suffices hgen : ∀ (m : String → List AnalysisResult),
      (∀ c, ((m c).length : Int) ≤ clampHistoryLimit rawLimit) →
      ∀ c, (((ops.foldl
          (fun m op => saveAnalysisResult (clampHistoryLimit rawLimit) m op.1 op.2) m)
            c).length : Int) ≤ clampHistoryLimit rawLimit by
    exact hgen (fun _ => []) (fun c => by simp; omega) code
  induction ops with
  | nil => intro m hm c; exact hm c
  | cons op rest ih =>
      intro m hm c
      refine ih _ ?_ c
      intro c2
      by_cases hc : c2 = op.1
      · simp only [saveAnalysisResult, hc, if_pos]
        exact insertHistory_length_le _ hK _ _
      · simp only [saveAnalysisResult, if_neg hc]
        exact hm c2

lemma take_append_take {α : Type} (l t : List α) (k : Nat) :
    (l ++ t.take k).take k = (l ++ t).take k := by
  rw [List.take_append_eq_append_take, List.take_append_eq_append_take, List.take_take,
    min_eq_left (Nat.sub_le k l.length)]

lemma foldl_insertHistory_eq (K : Int) (hK : 0 ≤ K) :
    ∀ (rs : List AnalysisResult) (h : List AnalysisResult), h.length ≤ K.toNat →
      rs.foldl (fun acc r => insertHistory K r acc) h = (rs.reverse ++ h).take K.toNat := by
  intro rs
  induction rs with
  | nil =>
      intro h hh
      simp [List.take_of_length_le hh]
  | cons r rest ih =>
      intro h hh
      have hlen : (insertHistory K r h).length ≤ K.toNat := by
        have := insertHistory_length_le K hK r h
        have h2 := Int.toNat_of_nonneg hK
        omega
      show rest.foldl (fun acc r => insertHistory K r acc) (insertHistory K r h) = _
      rw [ih (insertHistory K r h) hlen, insertHistory_eq_take K hK r h, take_append_take]
      simp

lemma applyInserts_apply_code (K : Int) (code : String) :
    ∀ (rs : List AnalysisResult) (m : String → List AnalysisResult),
      applyInserts K code rs m code =
        rs.foldl (fun h r => insertHistory K r h) (m code) := by
  intro rs
  induction rs with
  | nil => intro m; rfl
  | cons r rest ih =>
      intro m
      show applyInserts K code rest (saveAnalysisResult K m code r) code =
        rest.foldl (fun h r => insertHistory K r h) (insertHistory K r (m code))
      rw [ih]
      have hsave : (saveAnalysisResult K m code r) code = insertHistory K r (m code) := by
        simp [saveAnalysisResult]
      rw [hsave]

lemma head?_take_pos {α : Type} (l : List α) (k : Nat) (hk : 0 < k) :
    (l.take k).head? = l.head? := by
  cases l with
  | nil => simp
  | cons a t =>
      obtain ⟨k2, rfl⟩ : ∃ k2, k = k2 + 1 := ⟨k - 1, by omega⟩
      rfl

/-- C7: when `ParseAIResponse` fails on the LLM reply, `parseAIResponse`
succeeds with the synthetic HOLD/30 result whose reasoning embeds the raw
reply, `Analyze` returns it as a success (no error), and
`runAnalysisWithSemaphore` inserts it at the head of the per-code history
like any successful analysis. -/
theorem parse_failure_fallback_recorded (cfg : AnalysisConfig) (inp : AnalyzeInput)
    (np : Bool) (q : QuoteData) (d m30 : KlineData) (raw : String)
    (histories : String → List AnalysisResult) (code : String) (rawLimit : Int)
    (hcheck : inp.checkerPresent = false)
    (hq : inp.quote = .ok q) (hd : inp.dayKline = .ok d) (hm : inp.min30Kline = .ok m30)
    (hai : inp.aiResponse = .ok raw) (hparse : inp.parsed = none)
    (hprompt : (buildAnalysisPrompt cfg q d m30 (minuteOrNil inp.minuteData)
        (calculateTechnicalIndicators q d m30)).isSome = true) :
    ∃ r notified, Analyze cfg inp np = AnalyzeOutcome.ok r notified ∧
      r.signal = "HOLD" ∧ r.confidence = 30 ∧
      r.reasoning = "AI响应解析失败，建议观望。原始响应: " ++ raw ∧
      ((runAnalysisWithSemaphore (clampHistoryLimit rawLimit) histories code
          (Analyze cfg inp np)) code).head? = some r := by
  obtain ⟨p, hp⟩ := Option.isSome_iff_exists.mp hprompt
  have hA : Analyze cfg inp np =
      AnalyzeOutcome.ok
        (parseAIResponse cfg raw none (calculateTechnicalIndicators q d m30) inp.now)
        (if cfg.enableNotification && decide (cfg.minConfidence ≤
            (parseAIResponse cfg raw none (calculateTechnicalIndicators q d m30)
              inp.now).confidence)
          then sendNotification np else false) := by
    simp only [Analyze, hcheck, hq, hd, hm, hai, hparse, hp, Bool.false_and,
      Bool.not_true, if_neg] <;> rfl
  refine ⟨_, _, hA, rfl, rfl, rfl, ?_⟩
  rw [hA]
  show ((saveAnalysisResult (clampHistoryLimit rawLimit) histories code _) code).head? = _
  simp only [saveAnalysisResult, if_pos rfl]
  exact insertHistory_head _ (by have := clampHistoryLimit_ge_three rawLimit; omega) _ _

/-- The concrete parse-failure environment for the C7 witness. -/
def inpFall : AnalyzeInput :=
  { checkerPresent := false, isTrading := true
    quote := .ok quoteW
    dayKline := .ok ⟨List.replicate 60 (constBar 1250)⟩
    min30Kline := .ok ⟨[]⟩
    minuteData := .error "非交易时间"
    aiResponse := .ok "unable to analyze"
    parsed := none
    now := 2 }

/-- Witness for `parse_failure_fallback_recorded` at a concrete input. -/
theorem parse_failure_fallback_recorded_witness :
    ∃ r notified, Analyze cfgW inpFall true = AnalyzeOutcome.ok r notified ∧
      r.signal = "HOLD" ∧ r.confidence = 30 ∧
      r.reasoning = "AI响应解析失败，建议观望。原始响应: " ++ "unable to analyze" ∧
      ((runAnalysisWithSemaphore (clampHistoryLimit 20) (fun _ => []) "000001"
          (Analyze cfgW inpFall true)) "000001").head? = some r :=
  parse_failure_fallback_recorded cfgW inpFall true quoteW
    ⟨List.replicate 60 (constBar 1250)⟩ ⟨[]⟩ "unable to analyze" (fun _ => []) "000001" 20
    rfl rfl rfl rfl rfl rfl (by rfl)

/-- C8: with `K = clamp(analysis_history_limit, 3, 100)`, after in-order
inserts of `rs` for one code the stored list is the newest-first prefix
`rs.reverse.take K`; a query with positive limit `n` returns its first
`n` entries, whose head is the most recent insertion, and which is
monotonically non-increasing in timestamp whenever the inserts arrived in
non-decreasing timestamp order. -/
theorem history_query_newest_first (rawLimit n : Int) (hn : 0 < n) (code : String)
    (rs : List AnalysisResult) (hne : rs ≠ [])
    (hts : rs.Pairwise (fun a b => a.timestamp ≤ b.timestamp)) :
    GetAnalysisHistory (applyInserts (clampHistoryLimit rawLimit) code rs (fun _ => []))
        code n =
      ((applyInserts (clampHistoryLimit rawLimit) code rs (fun _ => [])) code).take n.toNat ∧
    (GetAnalysisHistory (applyInserts (clampHistoryLimit rawLimit) code rs (fun _ => []))
        code n).head? = some (rs.getLast hne) ∧
    (GetAnalysisHistory (applyInserts (clampHistoryLimit rawLimit) code rs (fun _ => []))
        code n).Pairwise (fun a b => b.timestamp ≤ a.timestamp) := by
  have hK3 : 3 ≤ clampHistoryLimit rawLimit := clampHistoryLimit_ge_three rawLimit
  have hK0 : (0 : Int) ≤ clampHistoryLimit rawLimit := by omega
  have hKt := Int.toNat_of_nonneg hK0
  have hnt := Int.toNat_of_nonneg (le_of_lt hn)
  have hstore : (applyInserts (clampHistoryLimit rawLimit) code rs (fun _ => [])) code =
      rs.reverse.take (clampHistoryLimit rawLimit).toNat := by
    rw [applyInserts_apply_code]
    have := foldl_insertHistory_eq (clampHistoryLimit rawLimit) hK0 rs [] (by simp)
    simpa using this
  have hq : GetAnalysisHistory
      (applyInserts (clampHistoryLimit rawLimit) code rs (fun _ => [])) code n =
      ((applyInserts (clampHistoryLimit rawLimit) code rs (fun _ => [])) code).take n.toNat := by
    simp only [GetAnalysisHistory]
    rw [if_neg (by omega : ¬ n ≤ 0)]
    split_ifs with hl
    · rfl
    · rw [List.take_of_length_le (by omega)]
  refine ⟨hq, ?_, ?_⟩
  · rw [hq, hstore, head?_take_pos _ _ (by omega), head?_take_pos _ _ (by omega),
      List.head?_reverse]
    exact List.getLast?_eq_getLast_of_ne_nil hne
  · rw [hq, hstore]
    have hrev : rs.reverse.Pairwise (fun a b => b.timestamp ≤ a.timestamp) := by
      rw [List.pairwise_reverse]
      exact hts
    exact (hrev.sublist (List.take_sublist _ _)).sublist (List.take_sublist _ _)

/-- Two results with non-decreasing timestamps for the C8 witness. -/
def resultA : AnalysisResult :=
  { stockCode := "000001", stockName := "平安银行", currentPrice := 12
    signal := "HOLD", confidence := 40, reasoning := "观望"
    targetPrice := 0, stopLoss := 0, riskReward := ""
    technicalData := calculateTechnicalIndicators quoteW ⟨[]⟩ ⟨[]⟩
    timestamp := 1, positionProfitTarget := 0, positionStopLoss := 0
    positionInfo := none }

/-- A later result for the C8 witness. -/
def resultB : AnalysisResult :=
  { resultA with signal := "BUY", confidence := 80, timestamp := 2 }

/-- Witness for `history_query_newest_first` at a concrete insert pair. -/
theorem history_query_newest_first_witness :
    GetAnalysisHistory (applyInserts (clampHistoryLimit 20) "000001" [resultA, resultB]
        (fun _ => [])) "000001" 1 =
      ((applyInserts (clampHistoryLimit 20) "000001" [resultA, resultB])
        (fun _ => []) "000001").take (1 : Int).toNat ∧
    (GetAnalysisHistory (applyInserts (clampHistoryLimit 20) "000001" [resultA, resultB]
        (fun _ => [])) "000001" 1).head? =
      some ([resultA, resultB].getLast (by simp)) ∧
    (GetAnalysisHistory (applyInserts (clampHistoryLimit 20) "000001" [resultA, resultB]
        (fun _ => [])) "000001" 1).Pairwise (fun a b => b.timestamp ≤ a.timestamp) :=
  history_query_newest_first 20 1 (by omega) "000001" [resultA, resultB] (by simp)
    (by simp [resultA, resultB])

/-- Go `time.Minute` in nanoseconds (`time.Duration` is an `int64` count of
nanoseconds). -/
def goMinute : Int := 60000000000

/-- The `minInterval` computation of `AnalyzerManager.startPollingMode`
(part_001 lines 580-586): the accumulator starts at the 5-minute default
and is lowered only by strictly smaller scan intervals. -/
def computePollingMinInterval (intervals : List Int) : Int :=
  intervals.foldl (fun acc d => if d < acc then d else acc) (5 * goMinute)

/-- The polling driver's ticker period (part_001 line 589):
`minInterval / 4` in Go integer division. -/
def pollingTickEvery (intervals : List Int) : Int :=
  Int.tdiv (computePollingMinInterval intervals) 4

/-- C6 counterexample: with a single enabled instrument whose scan interval
is 10 minutes, the ticker period is `5min/4 = 75s`, not
`min(scanIntervals)/4 = 150s` — the accumulator starts at the hard-coded
5-minute default and is never raised. -/
theorem polling_tick_ignores_min_above_five_minutes :
    pollingTickEvery [10 * goMinute] = Int.tdiv (5 * goMinute) 4 ∧
      pollingTickEvery [10 * goMinute] ≠ Int.tdiv (10 * goMinute) 4 := by
  constructor
  · rfl
  · decide

lemma foldl_min_step_eq (l : List Int) :
    ∀ a : Int, l.foldl (fun acc d => if d < acc then d else acc) a = l.foldl min a := by
  induction l with
  | nil => intro a; rfl
  | cons x xs ih =>
      intro a
      show xs.foldl (fun acc d => if d < acc then d else acc) (if x < a then x else a) =
        xs.foldl min (min a x)
      rw [ih]
      congr 1
      rw [min_def]
      split_ifs <;> omega

lemma foldl_min_of_le (l : List Int) :
    ∀ a : Int, (∀ x ∈ l, a ≤ x) → l.foldl min a = a := by
  induction l with
  | nil => intro a _; rfl
  | cons x xs ih =>
      intro a ha
      show xs.foldl min (min a x) = a
      have hax : min a x = a := min_eq_left (ha x (by simp))
      rw [hax]
      exact ih a (fun y hy => ha y (by simp [hy]))

lemma foldl_min_eq_min (l : List Int) (m : Int) :
    ∀ a : Int, m ∈ l → (∀ x ∈ l, m ≤ x) → l.foldl min a = min a m := by
  induction l with
  | nil => intro a hmem _; simp at hmem
  | cons x xs ih =>
      intro a hmem hmin
      show xs.foldl min (min a x) = min a m
      rcases List.mem_cons.mp hmem with rfl | hmx
      · rw [foldl_min_of_le xs (min a m)
          (fun y hy => le_trans (min_le_right a m) (hmin y (by simp [hy])))]
      · rw [ih (min a x) hmx (fun y hy => hmin y (by simp [hy]))]
        rw [min_assoc]
        congr 1
        exact min_eq_right (hmin x (by simp))

/-- C6 (amended): the polling ticker period is `m₀ / 4` where
`m₀ = min(5 minutes, min(scanIntervals))` — the hard-coded 5-minute
starting accumulator caps the result, so intervals above five minutes do
not raise the period. -/
theorem polling_tick_formula (l : List Int) (m : Int)
    (hmem : m ∈ l) (hmin : ∀ x ∈ l, m ≤ x) :
    pollingTickEvery l = Int.tdiv (min (5 * goMinute) m) 4 := by
  unfold pollingTickEvery computePollingMinInterval
  rw [foldl_min_step_eq, foldl_min_eq_min l m (5 * goMinute) hmem hmin]

/-- Witness for `polling_tick_formula` with one 10-minute instrument. -/
theorem polling_tick_formula_witness :
    (10 * goMinute ∈ [10 * goMinute]) ∧
      pollingTickEvery [10 * goMinute] =
        Int.tdiv (min (5 * goMinute) (10 * goMinute)) 4 :=
  ⟨by simp, polling_tick_formula [10 * goMinute] (10 * goMinute) (by simp) (by simp)⟩

/-- HTTP outcome of `handleRestart`: 401, 403, 200 `{code:0}`, or 503. -/
inductive RestartResponse where
  | unauthorized : RestartResponse
  | forbidden : RestartResponse
  | okRestart : RestartResponse
  | unavailable : RestartResponse
deriving DecidableEq

/-- `StockAPIServer.handleRestart` (src/api/stock_server.go lines 638-691).
The effective token is the `X-API-Token` header, or the body `token` field
when the header is empty (a missing body key reads as `""` in Go).
`hasRestartFunc` is whether `SetRestartFunc` was called; `main` (part_001
line 152) always calls it before starting the server. -/
def handleRestart (apiToken : String) (hasRestartFunc : Bool)
    (headerToken : String) (bodyToken : String) : RestartResponse :=
  let token := if headerToken = "" then bodyToken else headerToken
  if token = "" then .unauthorized
  else if apiToken ≠ "" ∧ token ≠ apiToken then .forbidden
  else if hasRestartFunc then .okRestart
  else .unavailable

/-- C9: under a non-empty configured token (and the restart callback that
`main` always installs): no token at all yields 401; a non-empty
non-matching token yields 403; the matching token yields 200 `{code:0}`. -/
theorem restart_auth_token_cases (apiToken headerToken bodyToken : String)
    (hA : apiToken ≠ "") :
    handleRestart apiToken true "" "" = RestartResponse.unauthorized ∧
      ((if headerToken = "" then bodyToken else headerToken) ≠ "" →
        (if headerToken = "" then bodyToken else headerToken) ≠ apiToken →
        handleRestart apiToken true headerToken bodyToken = RestartResponse.forbidden) ∧
      ((if headerToken = "" then bodyToken else headerToken) = apiToken →
        handleRestart apiToken true headerToken bodyToken = RestartResponse.okRestart) := by
  refine ⟨rfl, ?_, ?_⟩
  · intro h1 h2
    simp only [handleRestart]
    rw [if_neg h1, if_pos ⟨hA, h2⟩]
  · intro h3
    simp only [handleRestart]
    rw [if_neg (h3 ▸ hA), if_neg (by simp [h3])]
    simp

/-- Witness for `restart_auth_token_cases` with token `"secret"`. -/
theorem restart_auth_token_cases_witness :
    handleRestart "secret" true "" "" = RestartResponse.unauthorized ∧
      handleRestart "secret" true "wrong" "" = RestartResponse.forbidden ∧
      handleRestart "secret" true "secret" "" = RestartResponse.okRestart :=
  ⟨(restart_auth_token_cases "secret" "wrong" "" (by decide)).1,
    (restart_auth_token_cases "secret" "wrong" "" (by decide)).2.1 (by decide) (by decide),
    (restart_auth_token_cases "secret" "secret" "" (by decide)).2.2 (by decide)⟩

/-- C10: with an empty configured token, the wrong-token 403 branch is
unreachable (`s.apiToken != ""` guards it), so any non-empty supplied
token is accepted and only the missing-token 401 check remains. -/
theorem restart_empty_token_skips_forbidden (headerToken bodyToken : String) :
    ((if headerToken = "" then bodyToken else headerToken) ≠ "" →
      handleRestart "" true headerToken bodyToken = RestartResponse.okRestart) ∧
      ((if headerToken = "" then bodyToken else headerToken) = "" →
        handleRestart "" true headerToken bodyToken = RestartResponse.unauthorized) ∧
      handleRestart "" true headerToken bodyToken ≠ RestartResponse.forbidden := by
  refine ⟨?_, ?_, ?_⟩
  · intro h1
    simp only [handleRestart]
    rw [if_neg h1, if_neg (by simp)]
    simp
  · intro h2
    simp only [handleRestart]
    rw [if_pos h2]
  · simp only [handleRestart]
    split_ifs <;> simp_all

/-- Witness for `restart_empty_token_skips_forbidden`: any token passes. -/
theorem restart_empty_token_skips_forbidden_witness :
    handleRestart "" true "anything" "" = RestartResponse.okRestart :=
  (restart_empty_token_skips_forbidden "anything" "").1 (by decide)
